import Mathlib

/-!
Verification of the Christmas Sunday finder (src/basic.js).

The JavaScript source iterates over an inclusive year range, builds
`new Date(year, 11, 25)` for each year and keeps the years whose
`getDay()` is 0 (Sunday).  We embed the ECMAScript date semantics this
code exercises: `getDay` on a local-time construction returns the
Gregorian weekday of the civil date, and the multi-argument `Date`
constructor maps year arguments 0..99 to 1900..1999 (MakeFullYear).
Weekdays are computed from the rata die day number (day 1 = Monday,
January 1 of year 1, proleptic Gregorian), so `rataDie % 7 = 0` means
Sunday, matching the `getDay` encoding where Sunday is 0.

JavaScript number arithmetic in `calculateStatistics` is modelled
exactly over the rationals, with `toFixed(1)` read as rounding to the
nearest tenth (ties away from zero, following the abstract ECMAScript
rule on the exact value).
-/

/-- Proleptic Gregorian leap-year test. -/
def isLeap (y : Int) : Bool := y % 4 == 0 && (y % 100 != 0 || y % 400 == 0)

/-- Rata die day number of December 25 of year `y`
(day 1 = January 1 of year 1; floor division for years at or below 0). -/
def rataDieDec25 (y : Int) : Int :=
  365 * (y - 1) + (y - 1).fdiv 4 - (y - 1).fdiv 100 + (y - 1).fdiv 400 +
    359 + (if isLeap y then 1 else 0)

/-- Weekday of December 25 of year `y`, encoded as JS `getDay`: 0 = Sunday,
1 = Monday, ..., 6 = Saturday. -/
def dayOfWeekDec25 (y : Int) : Int := rataDieDec25 y % 7

/-- Year actually used by the JS `Date(year, 11, 25)` constructor:
arguments 0..99 are interpreted as 1900..1999. -/
def jsDateYear (y : Int) : Int := if 0 ≤ y ∧ y ≤ 99 then y + 1900 else y

/-- `new Date(y, 11, 25).getDay()` as evaluated by the source. -/
def xmasGetDay (y : Int) : Int := dayOfWeekDec25 (jsDateYear y)

/-- The integer list `[s, s+1, ..., e]` (empty when `e < s`): the years the
`for` loop of `findXmasSunday` visits. -/
def intRange (s e : Int) : List Int :=
  (List.range (e + 1 - s).toNat).map (fun i : Nat => s + (i : Int))

/-- `findXmasSunday` of src/basic.js: collect the years of the inclusive
range whose December 25, as constructed by `new Date(year, 11, 25)`,
falls on a Sunday. -/
def findXmasSunday (s e : Int) : List Int :=
  (intRange s e).filter (fun y => xmasGetDay y == 0)

/-- The three alert-and-return paths of the page-level wrapper
`findXmasSundays` of src/basic.js, as explicit error values. -/
inductive FindError where
  | missingInput
  | startAfterEnd
  | outOfRange
deriving DecidableEq

/-- The validation and dispatch of the global `findXmasSundays` function
(src/basic.js lines 119-152).  Each alert-and-return path becomes an
explicit error.  The truthiness test `!startYear || !endYear` makes the
integer 0 count as missing input; then start greater than end is
rejected, then a bound outside 1900..3000; otherwise the finder runs on
the given range. -/
def findXmasSundays (s e : Int) : Except FindError (List Int) :=
  if s = 0 ∨ e = 0 then .error .missingInput
  else if e < s then .error .startAfterEnd
  else if s < 1900 ∨ 3000 < e then .error .outOfRange
  else .ok (findXmasSunday s e)

/-- JS `toFixed(1)` on the exact rational value: round to the nearest
tenth, ties away from zero. -/
def jsRound1 (q : ℚ) : ℚ :=
  if q < 0 then -(((round (10 * (-q)) : ℤ) : ℚ) / 10)
  else ((round (10 * q) : ℤ) : ℚ) / 10

/-- The consecutive differences `years[i] - years[i-1]` built by the `for`
loop of `calculateStatistics`. -/
def consecGaps : List Int → List Int
  | a :: b :: rest => (b - a) :: consecGaps (b :: rest)
  | _ => []

/-- Result record of `ChristmasSundayFinder.calculateStatistics`.
`next = none` and `gap = none` stand for the sentinel strings
"None in range" and "-". -/
structure XmasStats where
  total : Nat
  frequency : ℚ
  next : Option Int
  gap : Option ℚ
deriving DecidableEq

/-- `ChristmasSundayFinder.calculateStatistics(years, startYear, endYear)`
of src/basic.js lines 91-115.  `currentYear` is the instance field set
from the clock in the constructor.  The fields, in order: `total` is
`years.length`; `frequency` is `(years.length / totalYears * 100).toFixed(1)`
with `totalYears = endYear - startYear + 1`; `next` is
`years.find((year) => year >= this.currentYear) || "None in range"`,
where the falsy fallback also replaces a found year 0 by the sentinel;
`gap` is the mean of the consecutive differences via `toFixed(1)`, or
the sentinel "-" when there are no gaps. -/
def calculateStatistics (currentYear : Int) (years : List Int)
    (startYear endYear : Int) : XmasStats :=
  ⟨years.length,
   jsRound1 ((years.length : ℚ) / ((endYear - startYear + 1 : Int) : ℚ) * 100),
   (match years.find? (fun y => decide (currentYear ≤ y)) with
    | some y => if y = 0 then none else some y
    | none => none),
   (if 0 < (consecGaps years).length then
      some (jsRound1 (((consecGaps years).sum : ℚ) / ((consecGaps years).length : ℚ)))
    else none)⟩

/-- Spec-side formula for the frequency, written from the words of the
spec: frequencyPercent = count / (end - start + 1) * 100, rounded to one
decimal place. -/
def specFrequency (count : Nat) (s e : Int) : ℚ :=
  jsRound1 ((count : ℚ) / ((e - s + 1 : Int) : ℚ) * 100)

/-- Spec-side consecutive differences years[i] - years[i-1]. -/
def specGaps (years : List Int) : List Int :=
  List.zipWith (fun a b => a - b) years.tail years

/-- Spec-side average gap: the arithmetic mean of the consecutive
differences, rounded to one decimal place. -/
def specAverageGap (years : List Int) : ℚ :=
  jsRound1 (((specGaps years).sum : ℚ) / ((specGaps years).length : ℚ))

/-! ## Helper lemmas -/

/-- Membership in the loop range is exactly the inclusive interval. -/
theorem mem_intRange (s e y : Int) : y ∈ intRange s e ↔ s ≤ y ∧ y ≤ e := by
  unfold intRange
  rw [List.mem_map]
  constructor
  · rintro ⟨i, hi, rfl⟩
    rw [List.mem_range] at hi
    omega
  · rintro ⟨h1, h2⟩
    exact ⟨(y - s).toNat, List.mem_range.mpr (by omega), by omega⟩

/-- The loop range is strictly increasing. -/
theorem intRange_pairwise (s e : Int) :
    (intRange s e).Pairwise (fun a b : Int => a < b) := by
  unfold intRange
  rw [List.pairwise_map]
  refine (List.pairwise_lt_range _).imp ?_
  intro a b h
  show s + (a : Int) < s + (b : Int)
  omega

/-- Membership in the result of `findXmasSunday`: the year is in range and
the weekday tested by the code, that of the constructor-adjusted year, is
Sunday. -/
theorem mem_findXmasSunday (s e y : Int) :
    y ∈ findXmasSunday s e ↔
      s ≤ y ∧ y ≤ e ∧ dayOfWeekDec25 (jsDateYear y) = 0 := by
  unfold findXmasSunday xmasGetDay
  rw [List.mem_filter, mem_intRange]
  simp [and_assoc]

/-- The gap list of the code agrees with the spec-side zipWith form. -/
theorem consecGaps_eq_specGaps : ∀ l : List Int, consecGaps l = specGaps l
  | [] => rfl
  | [_] => rfl
  | a :: b :: rest => by
    show (b - a) :: consecGaps (b :: rest)
      = (b - a) :: List.zipWith (fun a b => a - b) rest (b :: rest)
    rw [consecGaps_eq_specGaps (b :: rest)]
    rfl

/-- There is one gap fewer than there are years. -/
theorem consecGaps_length : ∀ l : List Int, (consecGaps l).length = l.length - 1
  | [] => rfl
  | [_] => rfl
  | a :: b :: rest => by
    have ih := consecGaps_length (b :: rest)
    simp only [consecGaps, List.length_cons] at ih ⊢
    omega

/-! ## Claims -/

/-- C1, counterexample: findXmasSunday 4 4 returns the year 4, yet
December 25 of year 4 in the proleptic Gregorian calendar is a Saturday
(weekday 6), not a Sunday; the code actually tested year 1904, whose
December 25 is a Sunday (weekday 0).  So membership in the result does
not coincide with "December 25 of year y is a Sunday". -/
theorem findXmasSunday_year4_not_sunday :
    findXmasSunday 4 4 = [4] ∧ dayOfWeekDec25 4 = 6 ∧ dayOfWeekDec25 1904 = 0 := by
  refine ⟨?_, ?_, ?_⟩ <;> decide

/-- C1, amended: for every start, end and y, the year y appears in
findXmasSunday start end if and only if y lies in the inclusive range and
December 25 of the constructor-adjusted year jsDateYear y (equal to
y + 1900 when 0 <= y <= 99, and to y itself otherwise) is a Sunday. -/
theorem findXmasSunday_mem_iff (s e y : Int) :
    y ∈ findXmasSunday s e ↔
      s ≤ y ∧ y ≤ e ∧ dayOfWeekDec25 (jsDateYear y) = 0 :=
  mem_findXmasSunday s e y

/-- C2: for start <= end, every returned year lies within the inclusive
bounds and the returned list is strictly ascending, hence without
duplicates. -/
theorem findXmasSunday_bounds_sorted (s e : Int) (hse : s ≤ e) :
    (∀ y ∈ findXmasSunday s e, s ≤ y ∧ y ≤ e) ∧
      (findXmasSunday s e).Pairwise (fun a b : Int => a < b) := by
  constructor
  · intro y hy
    have h := (mem_findXmasSunday s e y).mp hy
    exact ⟨h.1, h.2.1⟩
  · exact (intRange_pairwise s e).filter _

/-- C2, witness at the range 2000..2025. -/
theorem findXmasSunday_bounds_sorted_witness :
    (2000 : Int) ≤ 2025 ∧
      ((∀ y ∈ findXmasSunday 2000 2025, (2000 : Int) ≤ y ∧ y ≤ 2025) ∧
        (findXmasSunday 2000 2025).Pairwise (fun a b : Int => a < b)) :=
  ⟨by decide, findXmasSunday_bounds_sorted 2000 2025 (by decide)⟩

/-- C3: the golden list: findXmasSunday 2000 2025 returns exactly
[2005, 2011, 2016, 2022]. -/
theorem findXmasSunday_golden_2000_2025 :
    findXmasSunday 2000 2025 = [2005, 2011, 2016, 2022] := by decide

/-- C4: a request with start greater than end never yields a normal
result; for nonzero inputs (zero is caught earlier by the JS falsy
missing-input test) it fails with exactly the start-after-end error,
which realises the InvalidRangeError of the spec. -/
theorem findXmasSundays_rejects_reversed (s e : Int) (hgt : e < s) :
    (∀ l, findXmasSundays s e ≠ Except.ok l) ∧
      (s ≠ 0 → e ≠ 0 →
        findXmasSundays s e = Except.error FindError.startAfterEnd) := by
  unfold findXmasSundays
  by_cases h0 : s = 0 ∨ e = 0
  · rw [if_pos h0]
    exact ⟨fun l h => (nomatch h), fun hs he => absurd h0 (by simp [hs, he])⟩
  · rw [if_neg h0, if_pos hgt]
    exact ⟨fun l h => (nomatch h), fun _ _ => rfl⟩

/-- C4, witness at start 2000, end 1999. -/
theorem findXmasSundays_rejects_reversed_witness :
    findXmasSundays 2000 1999 = Except.error FindError.startAfterEnd :=
  (findXmasSundays_rejects_reversed 2000 1999 (by decide)).2
    (by decide) (by decide)

/-- C5: for a well-ordered range with nonzero bounds, the wrapper fails
with the out-of-range error exactly when an endpoint lies outside
1900..3000 (under start <= end the code guard "start < 1900 or
end > 3000" tests precisely that), and when both endpoints are inside
the bounds the result is the unmodified computation on the given range,
never a silently corrected one. -/
theorem findXmasSundays_bounds_guard (s e : Int) (hse : s ≤ e)
    (hs : s ≠ 0) (he : e ≠ 0) :
    (findXmasSundays s e = Except.error FindError.outOfRange ↔
      (s < 1900 ∨ 3000 < s ∨ e < 1900 ∨ 3000 < e)) ∧
      (1900 ≤ s → e ≤ 3000 →
        findXmasSundays s e = Except.ok (findXmasSunday s e)) := by
  unfold findXmasSundays
  have h0 : ¬ (s = 0 ∨ e = 0) := by
    rintro (h | h) <;> [exact hs h; exact he h]
  have hgt : ¬ e < s := not_lt.mpr hse
  rw [if_neg h0, if_neg hgt]
  constructor
  · constructor
    · intro hErr
      by_cases hb : s < 1900 ∨ 3000 < e
      · omega
      · rw [if_neg hb] at hErr
        cases hErr
    · intro hb
      have hb2 : s < 1900 ∨ 3000 < e := by omega
      rw [if_pos hb2]
  · intro h1 h2
    have hb : ¬ (s < 1900 ∨ 3000 < e) := by omega
    rw [if_neg hb]

/-- C5, witness at start 1800, end 2000 (start below the 1900 bound). -/
theorem findXmasSundays_bounds_guard_witness :
    findXmasSundays 1800 2000 = Except.error FindError.outOfRange :=
  (findXmasSundays_bounds_guard 1800 2000 (by decide) (by decide)
    (by decide)).1.mpr (by decide)

/-- C6: on an empty year list and any well-ordered range, the statistics
are count 0, frequency 0, the next-year sentinel and the average-gap
sentinel; the computation is total, so no division-by-zero failure
occurs. -/
theorem calculateStatistics_empty (c s e : Int) (hse : s ≤ e) :
    calculateStatistics c [] s e = ⟨0, 0, none, none⟩ := by
  unfold calculateStatistics
  simp [consecGaps, jsRound1]

/-- C6, witness at currentYear 2025 and range 2000..2025. -/
theorem calculateStatistics_empty_witness :
    calculateStatistics 2025 [] 2000 2025 = ⟨0, 0, none, none⟩ :=
  calculateStatistics_empty 2025 2000 2025 (by decide)

/-- C7: for any year list and any range with start <= end, the frequency
field equals the spec formula count / (end - start + 1) * 100 rounded to
one decimal place, where count is the length of the year list. -/
theorem calculateStatistics_frequency (c : Int) (years : List Int)
    (s e : Int) (hse : s ≤ e) :
    (calculateStatistics c years s e).frequency
      = specFrequency years.length s e := rfl

/-- C7, witness at the golden list over 2000..2025. -/
theorem calculateStatistics_frequency_witness :
    (calculateStatistics 2025 [2005, 2011, 2016, 2022] 2000 2025).frequency
      = specFrequency 4 2000 2025 :=
  calculateStatistics_frequency 2025 [2005, 2011, 2016, 2022] 2000 2025
    (by decide)

/-- C8: with at least two years, the gap field is the arithmetic mean of
the consecutive differences years[i] - years[i-1], rounded to one decimal
place; with fewer than two years it is the sentinel. -/
theorem calculateStatistics_average_gap (c : Int) (years : List Int)
    (s e : Int) :
    (2 ≤ years.length →
      (calculateStatistics c years s e).gap = some (specAverageGap years)) ∧
      (years.length < 2 → (calculateStatistics c years s e).gap = none) := by
  have hgap : (calculateStatistics c years s e).gap
      = if 0 < (consecGaps years).length then
          some (jsRound1
            (((consecGaps years).sum : ℚ) / ((consecGaps years).length : ℚ)))
        else none := rfl
  have hlen := consecGaps_length years
  constructor
  · intro h2
    rw [hgap, if_pos (by omega), consecGaps_eq_specGaps]
    rfl
  · intro h2
    rw [hgap, if_neg (by omega)]

/-- C8, witness at the golden list (gaps 6, 5, 6, mean 17/3, rounded to
5.7). -/
theorem calculateStatistics_average_gap_witness :
    (calculateStatistics 2025 [2005, 2011, 2016, 2022] 2000 2025).gap
      = some (specAverageGap [2005, 2011, 2016, 2022]) :=
  (calculateStatistics_average_gap 2025 [2005, 2011, 2016, 2022]
    2000 2025).1 (by decide)

/-- C9, counterexample: the same arguments (year list and bounds) produce
different results on finders whose currentYear clock fields differ, so
calculateStatistics is not a pure function of the year list and bounds
alone: with currentYear 2010 the next field is 2011, with currentYear
2030 it is the sentinel. -/
theorem calculateStatistics_depends_on_clock :
    (calculateStatistics 2010 [2005, 2011, 2016, 2022] 2000 2025).next
        = some 2011 ∧
      (calculateStatistics 2030 [2005, 2011, 2016, 2022] 2000 2025).next
        = none ∧
      calculateStatistics 2010 [2005, 2011, 2016, 2022] 2000 2025
        ≠ calculateStatistics 2030 [2005, 2011, 2016, 2022] 2000 2025 := by
  refine ⟨rfl, rfl, fun h => ?_⟩
  exact Option.noConfusion (congrArg XmasStats.next h)

/-- C9, amended: the count, frequency and average-gap fields of
calculateStatistics are pure functions of the year list and the range
bounds, identical across any two currentYear values; only the next field
additionally depends on the currentYear captured from the clock at
construction. -/
theorem calculateStatistics_pure_in_list_and_bounds (c c' : Int)
    (years : List Int) (s e : Int) :
    (calculateStatistics c years s e).total
        = (calculateStatistics c' years s e).total ∧
      (calculateStatistics c years s e).frequency
        = (calculateStatistics c' years s e).frequency ∧
      (calculateStatistics c years s e).gap
        = (calculateStatistics c' years s e).gap :=
  ⟨rfl, rfl, rfl⟩

/-- C10: for ranges inside 0..99, the loop tests the weekday of
December 25 of year y + 1900 for each y of the range, because the
two-argument-plus Date constructor maps years 0..99 to 1900..1999. -/
theorem findXmasSunday_small_years (s e : Int) (hs : 0 ≤ s) (he : e ≤ 99) :
    findXmasSunday s e
      = (intRange s e).filter (fun y => dayOfWeekDec25 (y + 1900) == 0) := by
  unfold findXmasSunday
  refine List.filter_congr ?_
  intro y hy
  have h := (mem_intRange s e y).mp hy
  have hjs : jsDateYear y = y + 1900 := by
    unfold jsDateYear
    rw [if_pos (show 0 ≤ y ∧ y ≤ 99 by omega)]
  simp only [xmasGetDay, hjs]

/-- C10, witness at the full range 0..99. -/
theorem findXmasSunday_small_years_witness :
    findXmasSunday 0 99
      = (intRange 0 99).filter (fun y => dayOfWeekDec25 (y + 1900) == 0) :=
  findXmasSunday_small_years 0 99 (by decide) (by decide)
